import Mathlib

/-
  Shallow embedding of the provider-fallback endpoints of main.py
  (Public APIs Tools Hub backend).

  Modeling conventions:
  - JSON values: numbers are modeled as integers, since the service never
    performs arithmetic on upstream numbers (they are passed through or
    tested for truthiness only).
  - A network call is modeled as a FetchOutcome: either a raised exception
    (requests.Timeout, connection errors, ...) carrying its message, or a
    Response carrying HTTP status, the content-type header, the raw text and
    the result of calling .json() on it (Except: a parse error is the
    message of the exception .json() would raise).
  - The message texts of Python runtime errors (KeyError, TypeError, ...)
    are modeled abstractly; the HTTPException details produced by main.py
    itself ("All sources failed: ...", "City not found", ...) are exact.
  - Each endpoint function takes the outcomes of its upstream calls as an
    oracle and returns the HTTP-level result; the fallback endpoints also
    return the ordered list of provider URLs actually fetched, and weather
    returns whether the forecast sub-call was invoked.
-/

namespace Hub

/-- JSON values as parsed by requests .json(). -/
inductive Json where
| null : Json
| bool (b : Bool) : Json
| num (n : Int) : Json
| str (s : String) : Json
| arr (xs : List Json) : Json
| obj (kvs : List (String × Json)) : Json

/-- First-match association lookup, mirroring Python dict key access
(parsed JSON dicts have unique keys, so first match is the match). -/
def jsonLookup (kvs : List (String × Json)) (k : String) : Option Json :=
match kvs with
| [] => none
| (k1, v) :: rest => if k1 == k then some v else jsonLookup rest k

/-- Python dict .get(key): None when the key is absent; AttributeError on a
non-dict value. -/
def jsonDictGet (j : Json) (k : String) : Except String Json :=
match j with
| .obj kvs => .ok ((jsonLookup kvs k).getD .null)
| _ => .error "AttributeError: value has no attribute get"

/-- Python strict indexing value[key] with a string key: KeyError when the
key is absent from a dict, TypeError on non-dict values. -/
def jsonGet (j : Json) (k : String) : Except String Json :=
match j with
| .obj kvs =>
  match jsonLookup kvs k with
  | some v => .ok v
  | none => .error ("KeyError: " ++ k)
| _ => .error "TypeError: value is not subscriptable by string"

/-- Python value[0]. -/
def jsonIndexZero (j : Json) : Except String Json :=
match j with
| .arr [] => .error "IndexError: list index out of range"
| .arr (x :: _) => .ok x
| .str s =>
  match s.data with
  | [] => .error "IndexError: string index out of range"
  | c :: _ => .ok (.str (String.mk [c]))
| .obj _ => .error "KeyError: 0"
| _ => .error "TypeError: value is not subscriptable"

/-- Python dict assignment d[k] = v: replace the value when the key exists,
append otherwise. -/
def setAssoc (kvs : List (String × Json)) (k : String) (v : Json) : List (String × Json) :=
match kvs with
| [] => [(k, v)]
| (k1, v1) :: rest => if k1 == k then (k1, v) :: rest else (k1, v1) :: setAssoc rest k v

/-- Python value[k] = v on a JSON value: TypeError unless it is a dict. -/
def jsonSetKey (j : Json) (k : String) (v : Json) : Except String Json :=
match j with
| .obj kvs => .ok (.obj (setAssoc kvs k v))
| _ => .error "TypeError: value does not support item assignment"

/-- Decidable substring test on char lists (needle occurs inside hay). -/
def hasSub (needle : List Char) : List Char → Bool
| [] => needle.isPrefixOf []
| c :: t => needle.isPrefixOf (c :: t) || hasSub needle t

/-- Python substring membership: sub in s. -/
def strContains (s sub : String) : Bool := hasSub sub.data s.data

/-- Python `key in value`: key membership for dicts, element equality for
lists, substring test for strings, TypeError otherwise. -/
def jsonIn (key : String) (j : Json) : Except String Bool :=
match j with
| .obj kvs => .ok (jsonLookup kvs key).isSome
| .arr xs => .ok (xs.any fun x => match x with | .str s => s == key | _ => false)
| .str s => .ok (strContains s key)
| _ => .error "TypeError: argument is not iterable"

/-- Python truthiness of a JSON value. -/
def pyTruthy : Json → Bool
| .null => false
| .bool b => b
| .num n => n != 0
| .str s => !s.isEmpty
| .arr xs => !xs.isEmpty
| .obj kvs => !kvs.isEmpty

mutual
/-- Python repr of a JSON value (string escape sequences are not modeled;
no endpoint logic depends on them). -/
def pyRepr : Json → String
| .null => "None"
| .bool true => "True"
| .bool false => "False"
| .num n => toString n
| .str s => "\x27" ++ s ++ "\x27"
| .arr xs => "[" ++ String.intercalate ", " (pyReprList xs) ++ "]"
| .obj kvs => "\x7b" ++ String.intercalate ", " (pyReprObj kvs) ++ "\x7d"

def pyReprList : List Json → List String
| [] => []
| x :: xs => pyRepr x :: pyReprList xs

def pyReprObj : List (String × Json) → List String
| [] => []
| (k, v) :: rest => ("\x27" ++ k ++ "\x27: " ++ pyRepr v) :: pyReprObj rest
end

/-- Python str() of a JSON value, as used by f-string interpolation. -/
def pyStr : Json → String
| .str s => s
| j => pyRepr j

/-- Python str() of the last_error variable: "None" for None. -/
def pyOptStr : Option String → String
| none => "None"
| some s => s

/-- Kind of exception raised by a requests call. The endpoints of main.py
never inspect the kind (bare `except Exception`); it is carried so that
statements can distinguish what the code itself does not. -/
inductive ExnKind where
| timeout : ExnKind
| transportError : ExnKind
| other : ExnKind

/-- A raised exception: its kind and its str() message. -/
structure Exn where
kind : ExnKind
msg : String

/-- An HTTP response as seen through the requests API. -/
structure Response where
status : Nat
contentType : String
text : String
jsonV : Except String Json

/-- requests Response.ok: status code below 400. -/
def Response.ok (r : Response) : Bool := decide (r.status < 400)

/-- Outcome of one requests.get call. -/
inductive FetchOutcome where
| exn (e : Exn) : FetchOutcome
| resp (r : Response) : FetchOutcome

/-- Result of one endpoint invocation: a JSON body with HTTP 200, or a
raised HTTPException with status code and detail string. -/
inductive ApiResult where
| success (body : Json) : ApiResult
| httpError (status : Nat) (detail : String) : ApiResult

/-- Python str.upper() on ASCII strings. -/
def pyUpper (s : String) : String := String.mk (s.data.map Char.toUpper)

/-- str() of a Starlette HTTPException, as seen by a wrapping handler. -/
def httpExnStr (code : Nat) (detail : String) : String :=
toString code ++ ": " ++ detail

/-- The ordered IP-lookup provider list of main.py. -/
def ipSources : List String :=
["https://ipapi.co/json/", "https://ipwho.is/", "https://api.ipify.org?format=json"]

/-- Body construction of ip_lookup for an ok response: r.json() when the
content-type mentions json (its parse error propagates as an exception),
else the raw-text wrapper object. -/
def ipBody (r : Response) : Except String Json :=
if strContains r.contentType "json" then r.jsonV
else .ok (.obj [("raw", .str r.text)])

/-- The fallback loop of ip_lookup over the remaining sources, threading the
last_error variable; also returns the URLs fetched, in order. -/
def ipLoop (f : String → FetchOutcome) : List String → Option String → ApiResult × List String
| [], last => (.httpError 502 ("All sources failed: " ++ pyOptStr last), [])
| url :: rest, last =>
  match f url with
  | .exn e =>
    let r := ipLoop f rest (some e.msg)
    (r.1, url :: r.2)
  | .resp resp =>
    if resp.ok then
      match ipBody resp with
      | .ok data => (.success (.obj [("source", .str url), ("data", data)]), [url])
      | .error m =>
        let r := ipLoop f rest (some m)
        (r.1, url :: r.2)
    else
      let r := ipLoop f rest last
      (r.1, url :: r.2)

/-- GET /api/ip of main.py. -/
def ip_lookup (f : String → FetchOutcome) : ApiResult × List String :=
ipLoop f ipSources none

/-- One ip_lookup provider attempt is accepted when the fetch returns an ok
response whose body construction raises no exception. -/
def ipAccepted (o : FetchOutcome) : Bool :=
match o with
| .exn _ => false
| .resp r => r.ok && (match ipBody r with | .ok _ => true | .error _ => false)

/-- The ordered joke provider list of main.py. -/
def jokeSources : List String :=
["https://official-joke-api.appspot.com/random_joke", "https://v2.jokeapi.dev/joke/Any?type=single"]

/-- The body inspection of random_joke on a parsed JSON value: the two
key-membership checks with their returns; .ok none when neither branch
returns (the loop then falls through to the next source); .error when a
Python exception is raised (caught by the bare except, same fall-through). -/
def jokeBody (j : Json) : Except String (Option Json) :=
match jsonIn "setup" j with
| .error m => .error m
| .ok hs =>
  match (if hs then jsonIn "punchline" j else .ok false) with
  | .error m => .error m
  | .ok hboth =>
    if hboth then
      match jsonGet j "setup" with
      | .error m => .error m
      | .ok s =>
        match jsonGet j "punchline" with
        | .error m => .error m
        | .ok p => .ok (some (.obj [("text", .str (pyStr s ++ " " ++ pyStr p))]))
    else
      match jsonIn "joke" j with
      | .error m => .error m
      | .ok hj =>
        if hj then
          match jsonGet j "joke" with
          | .error m => .error m
          | .ok v => .ok (some (.obj [("text", v)]))
        else .ok none

/-- One random_joke attempt on a received response: some body when a return
statement executes, none when the loop continues to the next source. -/
def jokeTry (r : Response) : Option Json :=
if r.ok then
  match r.jsonV with
  | .error _ => none
  | .ok j =>
    match jokeBody j with
    | .ok (some v) => some v
    | _ => none
else none

/-- The fallback loop of random_joke; also returns the URLs fetched. -/
def jokeLoop (f : String → FetchOutcome) : List String → ApiResult × List String
| [] => (.httpError 502 "All joke sources failed", [])
| url :: rest =>
  match f url with
  | .exn _ =>
    let r := jokeLoop f rest
    (r.1, url :: r.2)
  | .resp resp =>
    match jokeTry resp with
    | some v => (.success v, [url])
    | none =>
      let r := jokeLoop f rest
      (r.1, url :: r.2)

/-- GET /api/joke of main.py. -/
def random_joke (f : String → FetchOutcome) : ApiResult × List String :=
jokeLoop f jokeSources

/-- One random_joke provider attempt is accepted when a received response
makes one of the two return statements execute. -/
def jokeAccepted (o : FetchOutcome) : Bool :=
match o with
| .exn _ => false
| .resp r => (jokeTry r).isSome

/-- GET /api/weather of main.py. Takes the geocoding call outcome and the
forecast call outcome as a function of the extracted coordinates; the Bool
of the result records whether the forecast sub-call was invoked. The outer
try re-raises HTTPException unchanged and maps any other exception to a 502
with its message. -/
def weather (geo : FetchOutcome) (fc : Json → Json → FetchOutcome) : ApiResult × Bool :=
match geo with
| .exn e => (.httpError 502 e.msg, false)
| .resp g =>
  if g.ok then
    match g.jsonV with
    | .error m => (.httpError 502 m, false)
    | .ok gj =>
      match jsonDictGet gj "results" with
      | .error m => (.httpError 502 m, false)
      | .ok results =>
        if pyTruthy results then
          match jsonGet gj "results" with
          | .error m => (.httpError 502 m, false)
          | .ok results2 =>
            match jsonIndexZero results2 with
            | .error m => (.httpError 502 m, false)
            | .ok gRec =>
              match jsonGet gRec "latitude" with
              | .error m => (.httpError 502 m, false)
              | .ok lat =>
                match jsonGet gRec "longitude" with
                | .error m => (.httpError 502 m, false)
                | .ok lon =>
                  match fc lat lon with
                  | .exn e => (.httpError 502 e.msg, true)
                  | .resp meteo =>
                    if meteo.ok then
                      match meteo.jsonV with
                      | .error m => (.httpError 502 m, true)
                      | .ok data =>
                        match jsonDictGet gRec "name" with
                        | .error m => (.httpError 502 m, true)
                        | .ok nm =>
                          match jsonDictGet gRec "country" with
                          | .error m => (.httpError 502 m, true)
                          | .ok ct =>
                            match jsonSetKey data "location"
                                (.obj [("name", nm), ("country", ct), ("lat", lat), ("lon", lon)]) with
                            | .error m => (.httpError 502 m, true)
                            | .ok d => (.success d, true)
                    else (.httpError 502 "Open-Meteo failed", true)
        else (.httpError 404 "City not found", false)
  else (.httpError 404 "City not found", false)

/-- GET /api/convert of main.py. The outer except wraps every exception,
including the raised 502 HTTPException, into a 502 with its str(). -/
def currency_convert (from_ to_ : String) (amount : Json) (o : FetchOutcome) : ApiResult :=
match o with
| .exn e => .httpError 502 e.msg
| .resp r =>
  if r.ok then
    match r.jsonV with
    | .error m => .httpError 502 m
    | .ok j =>
      match jsonDictGet j "result" with
      | .error m => .httpError 502 m
      | .ok res =>
        .success (.obj [("from", .str (pyUpper from_)), ("to", .str (pyUpper to_)),
          ("amount", amount), ("result", res)])
  else .httpError 502 (httpExnStr 502 "exchangerate.host convert failed")

/-- The fixed sentence of the local lorem fallback generator. -/
def loremSentence : String :=
"Lorem ipsum dolor sit amet, consectetur adipiscing elit. "

/-- GET /api/lorem of main.py. The 502 HTTPException raised on a non-ok
response is caught by the own except clause, which runs the local fallback
generator instead, so every path returns a 200 body. -/
def lorem (paragraphs : Nat) (o : FetchOutcome) : ApiResult :=
match o with
| .exn _ =>
  .success (.obj [("text", .str (String.intercalate "\n\n"
    (List.replicate paragraphs (String.join (List.replicate 30 loremSentence)).trim)))])
| .resp r =>
  if r.ok then .success (.obj [("text", .str r.text)])
  else
    .success (.obj [("text", .str (String.intercalate "\n\n"
      (List.replicate paragraphs (String.join (List.replicate 30 loremSentence)).trim)))])

/-
  Helper lemmas about the two fallback loops.
-/

/-- The ip_lookup loop returns the first accepted provider and fetches
nothing after it, whatever the threaded last_error is. -/
lemma ipLoop_first (f : String → FetchOutcome) (u : String) (post : List String)
    (r : Response) (hu : f u = .resp r) (hok : r.ok = true) (d : Json)
    (hd : ipBody r = .ok d) :
    ∀ (pre : List String), (∀ v ∈ pre, ipAccepted (f v) = false) → ∀ last,
      ipLoop f (pre ++ u :: post) last
        = (.success (.obj [("source", .str u), ("data", d)]), pre ++ [u]) := by
  intro pre
  induction pre with
  | nil =>
    intro _ last
    simp [List.nil_append, ipLoop, hu, hok, hd]
  | cons v pre ih =>
    intro hrej last
    have hv : ipAccepted (f v) = false := hrej v (List.mem_cons_self v pre)
    have hrest : ∀ w ∈ pre, ipAccepted (f w) = false :=
      fun w hw => hrej w (List.mem_cons_of_mem v hw)
    simp only [List.cons_append, ipLoop]
    cases hfv : f v with
    | exn e =>
      simp [ih hrest (some e.msg)]
    | resp resp =>
      cases hok2 : resp.ok with
      | false =>
        simp [hok2, ih hrest last]
      | true =>
        cases hb : ipBody resp with
        | ok d2 =>
          exfalso
          have : ipAccepted (f v) = true := by
            rw [hfv]; simp [ipAccepted, hok2, hb]
          rw [hv] at this
          exact Bool.false_ne_true this
        | error m =>
          simp [hok2, hb, ih hrest (some m)]

/-- When every provider of an ip_lookup source list is rejected, the loop
fetches all of them in order and raises 502; the retained diagnostic is
characterized by the loop over the last_error variable below. -/
def ipLastError (f : String → FetchOutcome) : List String → Option String → Option String
| [], last => last
| url :: rest, last =>
  match f url with
  | .exn e => ipLastError f rest (some e.msg)
  | .resp r =>
    if r.ok then
      match ipBody r with
      | .ok _ => last
      | .error m => ipLastError f rest (some m)
    else ipLastError f rest last

lemma ipLoop_all_rejected (f : String → FetchOutcome) :
    ∀ (urls : List String), (∀ u ∈ urls, ipAccepted (f u) = false) → ∀ last,
      ipLoop f urls last
        = (.httpError 502 ("All sources failed: " ++ pyOptStr (ipLastError f urls last)), urls) := by
  intro urls
  induction urls with
  | nil => intro _ last; simp only [ipLoop, ipLastError]
  | cons v rest ih =>
    intro hrej last
    have hv : ipAccepted (f v) = false := hrej v (List.mem_cons_self v rest)
    have hrest : ∀ w ∈ rest, ipAccepted (f w) = false :=
      fun w hw => hrej w (List.mem_cons_of_mem v hw)
    simp only [ipLoop, ipLastError]
    cases hfv : f v with
    | exn e => simp [ih hrest (some e.msg)]
    | resp resp =>
      cases hok2 : resp.ok with
      | false => simp [hok2, ih hrest last]
      | true =>
        cases hb : ipBody resp with
        | ok d2 =>
          exfalso
          have : ipAccepted (f v) = true := by
            rw [hfv]; simp [ipAccepted, hok2, hb]
          rw [hv] at this
          exact Bool.false_ne_true this
        | error m => simp [hok2, hb, ih hrest (some m)]

/-- The random_joke loop returns the first accepted provider and fetches
nothing after it. -/
lemma jokeLoop_first (f : String → FetchOutcome) (u : String) (post : List String)
    (r : Response) (hu : f u = .resp r) (v : Json) (hv : jokeTry r = some v) :
    ∀ (pre : List String), (∀ w ∈ pre, jokeAccepted (f w) = false) →
      jokeLoop f (pre ++ u :: post) = (.success v, pre ++ [u]) := by
  intro pre
  induction pre with
  | nil =>
    simp only [List.nil_append, ipLoop, jokeLoop, hu, hv, implies_true]
  | cons w pre ih =>
    intro hrej
    have hw : jokeAccepted (f w) = false := hrej w (List.mem_cons_self w pre)
    have hrest : ∀ x ∈ pre, jokeAccepted (f x) = false :=
      fun x hx => hrej x (List.mem_cons_of_mem w hx)
    simp only [List.cons_append, jokeLoop]
    cases hfw : f w with
    | exn e => simp [ih hrest]
    | resp resp =>
      cases ht : jokeTry resp with
      | some v2 =>
        exfalso
        have : jokeAccepted (f w) = true := by
          rw [hfw]; simp [jokeAccepted, ht]
        rw [hw] at this
        exact Bool.false_ne_true this
      | none => simp [ht, ih hrest]

/-- When every joke provider is rejected, the loop fetches all of them in
order and raises the fixed 502. -/
lemma jokeLoop_all_rejected (f : String → FetchOutcome) :
    ∀ (urls : List String), (∀ u ∈ urls, jokeAccepted (f u) = false) →
      jokeLoop f urls = (.httpError 502 "All joke sources failed", urls) := by
  intro urls
  induction urls with
  | nil => intro _; simp only [jokeLoop]
  | cons w rest ih =>
    intro hrej
    have hw : jokeAccepted (f w) = false := hrej w (List.mem_cons_self w rest)
    have hrest : ∀ x ∈ rest, jokeAccepted (f x) = false :=
      fun x hx => hrej x (List.mem_cons_of_mem w hx)
    simp only [jokeLoop]
    cases hfw : f w with
    | exn e => simp only [ih hrest]
    | resp resp =>
      cases ht : jokeTry resp with
      | some v2 =>
        exfalso
        have : jokeAccepted (f w) = true := by
          rw [hfw]; simp [jokeAccepted, ht]
        rw [hw] at this
        exact Bool.false_ne_true this
      | none => simp only [ht, ih hrest]

/-
  Concrete fixtures for witnesses and counterexamples.
-/

/-- A provider response with a non-success status. -/
def nonOkResp : Response := ⟨500, "", "", .ok .null⟩

/-- A rejected (503) first provider for the fixtures below. -/
def respNotOk : Response :=
⟨503, "application/json", "bad gateway", .ok (.obj [("error", .bool true)])⟩

/-- An accepted IP provider response. -/
def respIpOk : Response :=
⟨200, "application/json", "", .ok (.obj [("ip", .str "1.2.3.4")])⟩

/-- An accepted setup/punchline joke response. -/
def respJokeOk : Response :=
⟨200, "application/json", "",
  .ok (.obj [("setup", .str "Why?"), ("punchline", .str "Because.")])⟩

/-- Oracle: first IP source 503, second accepted; first joke source
accepted. -/
def fFixtureC1 : String → FetchOutcome := fun url =>
if url == "https://ipapi.co/json/" then .resp respNotOk
else if url == "https://ipwho.is/" then .resp respIpOk
else if url == "https://official-joke-api.appspot.com/random_joke" then .resp respJokeOk
else .resp respNotOk

/-
  Claim theorems.
-/

/-- Claim C1: for both fallback capabilities (IP lookup with its 3 sources,
joke retrieval with its 2 sources), whenever some provider in the ordered
list would be accepted, the orchestrator returns Success built from the
first accepted provider, and the fetched-URL trace stops right there: no
later provider is invoked. -/
theorem first_success_short_circuit (f : String → FetchOutcome) :
    ipSources.length = 3 ∧ jokeSources.length = 2
    ∧ (∀ pre u post, ipSources = pre ++ u :: post →
        (∀ v ∈ pre, ipAccepted (f v) = false) → ipAccepted (f u) = true →
        ∃ data, ip_lookup f
          = (.success (.obj [("source", .str u), ("data", data)]), pre ++ [u]))
    ∧ (∀ pre u post, jokeSources = pre ++ u :: post →
        (∀ v ∈ pre, jokeAccepted (f v) = false) → jokeAccepted (f u) = true →
        ∃ body, random_joke f = (.success body, pre ++ [u])) := by
  refine ⟨rfl, rfl, ?_, ?_⟩
  · intro pre u post hdec hrej hacc
    cases hfu : f u with
    | exn e => rw [hfu] at hacc; simp [ipAccepted] at hacc
    | resp r =>
      rw [hfu] at hacc
      simp only [ipAccepted, Bool.and_eq_true] at hacc
      obtain ⟨hok, hbd⟩ := hacc
      cases hbr : ipBody r with
      | error m => rw [hbr] at hbd; simp at hbd
      | ok d =>
        refine ⟨d, ?_⟩
        unfold ip_lookup
        rw [hdec]
        exact ipLoop_first f u post r hfu hok d hbr pre hrej none
  · intro pre u post hdec hrej hacc
    cases hfu : f u with
    | exn e => rw [hfu] at hacc; simp [jokeAccepted] at hacc
    | resp r =>
      rw [hfu] at hacc
      simp only [jokeAccepted, Option.isSome_iff_exists] at hacc
      obtain ⟨v, hv⟩ := hacc
      refine ⟨v, ?_⟩
      unfold random_joke
      rw [hdec]
      exact jokeLoop_first f u post r hfu v hv pre hrej

/-- Witness for C1: with the first IP source down (503) and the second
accepted, ip_lookup answers from the second source and never fetches the
third; with the first joke source accepted, random_joke fetches only it. -/
theorem first_success_short_circuit_witness :
    (∃ data, ip_lookup fFixtureC1
      = (.success (.obj [("source", .str "https://ipwho.is/"), ("data", data)]),
         ["https://ipapi.co/json/", "https://ipwho.is/"]))
    ∧ (∃ body, random_joke fFixtureC1
      = (.success body, ["https://official-joke-api.appspot.com/random_joke"])) := by
  constructor
  · exact (first_success_short_circuit fFixtureC1).2.2.1
      ["https://ipapi.co/json/"] "https://ipwho.is/" ["https://api.ipify.org?format=json"]
      rfl (by intro v hv; simp at hv; subst hv; rfl) rfl
  · exact (first_success_short_circuit fFixtureC1).2.2.2
      [] "https://official-joke-api.appspot.com/random_joke"
      ["https://v2.jokeapi.dev/joke/Any?type=single"]
      rfl (by intro v hv; simp at hv) rfl

/-- Oracle under which every IP provider raises, with distinct messages. -/
def fAllRaise : String → FetchOutcome := fun url =>
if url == "https://ipapi.co/json/" then .exn ⟨.transportError, "dns failure A"⟩
else if url == "https://ipwho.is/" then .exn ⟨.timeout, "timeout B"⟩
else .exn ⟨.transportError, "refused C"⟩

/-- Counterexample to C2: when all three IP providers fail with distinct
reasons, the 502 body carries only the last reason; the first two reasons do
not occur in the diagnostic at all, so no failure list of length 3 in
attempt order is rendered. -/
theorem no_per_provider_failure_list_counterexample :
    ip_lookup fAllRaise = (.httpError 502 "All sources failed: refused C", ipSources)
    ∧ strContains "All sources failed: refused C" "dns failure A" = false
    ∧ strContains "All sources failed: refused C" "timeout B" = false :=
  ⟨rfl, rfl, rfl⟩

/-- Claim C2 as amended: when every provider fails, all configured providers
are attempted in order and a 502 is raised; its body is a single diagnostic
string - for IP lookup the prefix plus only the most recently raised
exception message (tracked by ipLastError), for jokes a fixed sentence with
no per-provider information - not a failure list of per-provider reasons. -/
theorem all_fail_single_diagnostic_amended (f : String → FetchOutcome)
    (hip : ∀ u ∈ ipSources, ipAccepted (f u) = false)
    (hjk : ∀ u ∈ jokeSources, jokeAccepted (f u) = false) :
    ip_lookup f
      = (.httpError 502 ("All sources failed: " ++ pyOptStr (ipLastError f ipSources none)),
         ipSources)
    ∧ random_joke f = (.httpError 502 "All joke sources failed", jokeSources) :=
  ⟨ipLoop_all_rejected f ipSources hip none, jokeLoop_all_rejected f jokeSources hjk⟩

/-- Witness for the amended C2 at a concrete all-fail oracle. -/
theorem all_fail_single_diagnostic_amended_witness :
    ip_lookup fAllRaise
      = (.httpError 502
          ("All sources failed: " ++ pyOptStr (ipLastError fAllRaise ipSources none)),
         ipSources)
    ∧ random_joke fAllRaise = (.httpError 502 "All joke sources failed", jokeSources) :=
  all_fail_single_diagnostic_amended fAllRaise (by decide) (by decide)

/-- An accepted first IP provider with geolocation data. -/
def respIpFirst : Response :=
⟨200, "application/json; charset=utf-8", "",
  .ok (.obj [("ip", .str "203.0.113.7"), ("city", .str "Oslo")])⟩

/-- Oracle answering every URL with the accepted first-provider response. -/
def fIpFirstOk : String → FetchOutcome := fun _ => .resp respIpFirst

/-- Claim C6: a successful IP lookup returns an object with exactly the keys
source and data, where source is the URL of the first accepted provider of
the configured list and data is the body that provider produced. -/
theorem ip_canonical_source_data (f : String → FetchOutcome) (pre : List String)
    (u : String) (post : List String) (hdec : ipSources = pre ++ u :: post)
    (hrej : ∀ v ∈ pre, ipAccepted (f v) = false)
    (r : Response) (hu : f u = .resp r) (hok : r.ok = true)
    (d : Json) (hd : ipBody r = .ok d) :
    ip_lookup f = (.success (.obj [("source", .str u), ("data", d)]), pre ++ [u]) := by
  unfold ip_lookup
  rw [hdec]
  exact ipLoop_first f u post r hu hok d hd pre hrej none

/-- Witness for C6: the first source accepted, canonical body spelled out. -/
theorem ip_canonical_source_data_witness :
    ip_lookup fIpFirstOk
      = (.success (.obj [("source", .str "https://ipapi.co/json/"),
          ("data", .obj [("ip", .str "203.0.113.7"), ("city", .str "Oslo")])]),
         ["https://ipapi.co/json/"]) :=
  ip_canonical_source_data fIpFirstOk [] "https://ipapi.co/json/"
    ["https://ipwho.is/", "https://api.ipify.org?format=json"] rfl
    (by intro v hv; simp at hv) respIpFirst rfl rfl
    (.obj [("ip", .str "203.0.113.7"), ("city", .str "Oslo")]) rfl

/-- An accepted single-field joke response. -/
def respJokeSingle : Response :=
⟨200, "application/json", "", .ok (.obj [("joke", .str "One-liner.")])⟩

/-- Claim C3: on an accepted, parsed joke body, when both the setup and the
punchline keys are present the canonical result is the object with text set
to setup, a space, and punchline; otherwise, when the joke key is present,
the canonical result carries that value under text unchanged. -/
theorem joke_normalization (r : Response) (kvs : List (String × Json))
    (hok : r.ok = true) (hjson : r.jsonV = .ok (.obj kvs)) :
    (∀ s p, jsonLookup kvs "setup" = some (.str s) →
        jsonLookup kvs "punchline" = some (.str p) →
        jokeTry r = some (.obj [("text", .str (s ++ " " ++ p))]))
    ∧ (∀ v, ((jsonLookup kvs "setup").isSome && (jsonLookup kvs "punchline").isSome) = false →
        jsonLookup kvs "joke" = some v →
        jokeTry r = some (.obj [("text", v)])) := by
  constructor
  · intro s p hs hp
    simp [jokeTry, hok, hjson, jokeBody, jsonIn, jsonGet, hs, hp, pyStr]
  · intro v hnot hj
    cases hsu : jsonLookup kvs "setup" with
    | none => simp [jokeTry, hok, hjson, jokeBody, jsonIn, jsonGet, hsu, hj]
    | some w =>
      cases hpu : jsonLookup kvs "punchline" with
      | none => simp [jokeTry, hok, hjson, jokeBody, jsonIn, jsonGet, hsu, hpu, hj]
      | some x =>
        rw [hsu, hpu] at hnot
        simp at hnot

/-- Witness for C3 on the two example bodies of the specification. -/
theorem joke_normalization_witness :
    jokeTry respJokeOk = some (.obj [("text", .str "Why? Because.")])
    ∧ jokeTry respJokeSingle = some (.obj [("text", .str "One-liner.")]) := by
  constructor
  · exact (joke_normalization respJokeOk
      [("setup", .str "Why?"), ("punchline", .str "Because.")] rfl rfl).1
      "Why?" "Because." rfl rfl
  · exact (joke_normalization respJokeSingle
      [("joke", .str "One-liner.")] rfl rfl).2 (.str "One-liner.") rfl rfl

/-- A geocoding response whose results list is empty. -/
def geoZeroResults : Response :=
⟨200, "application/json", "", .ok (.obj [("results", .arr [])])⟩

/-- A forecast oracle (its value is irrelevant where it is used). -/
def fcUnused : Json → Json → FetchOutcome :=
fun _ _ => .resp ⟨200, "application/json", "", .ok (.obj [])⟩

/-- Claim C4: when the geocoding step succeeds at the HTTP level but returns
zero results, the weather endpoint fails with 404 City not found - a
classification distinct from every 502 transport-class failure - and the
forecast sub-call is never invoked (the invocation flag is false). -/
theorem weather_zero_results_not_found (g : Response) (gj : Json)
    (fc : Json → Json → FetchOutcome)
    (hok : g.ok = true) (hjson : g.jsonV = .ok gj)
    (hres : jsonDictGet gj "results" = .ok (.arr [])) :
    weather (.resp g) fc = (.httpError 404 "City not found", false)
    ∧ ∀ d, (ApiResult.httpError 404 "City not found") ≠ (ApiResult.httpError 502 d) := by
  constructor
  · simp [weather, hok, hjson, hres, pyTruthy]
  · intro d h
    injection h with h1 _
    exact absurd h1 (by decide)

/-- Witness for C4 at a concrete empty geocoding result. -/
theorem weather_zero_results_not_found_witness :
    weather (.resp geoZeroResults) fcUnused = (.httpError 404 "City not found", false)
    ∧ ∀ d, (ApiResult.httpError 404 "City not found") ≠ (ApiResult.httpError 502 d) :=
  weather_zero_results_not_found geoZeroResults (.obj [("results", .arr [])])
    fcUnused rfl rfl rfl

/-- Oracle: the first IP provider times out; the rest answer 500. -/
def fTimeoutFirst : String → FetchOutcome := fun url =>
if url == "https://ipapi.co/json/" then .exn ⟨.timeout, "request timed out"⟩
else .resp nonOkResp

/-- Oracle identical to fTimeoutFirst except that the first provider fails
with a transport error carrying the same message. -/
def fTransportFirst : String → FetchOutcome := fun url =>
if url == "https://ipapi.co/json/" then .exn ⟨.transportError, "request timed out"⟩
else .resp nonOkResp

/-- Counterexample to C5: a run whose first provider raised a timeout and a
run whose first provider raised a transport error with the same message are
observationally identical - no per-provider failure record distinguishes
Timeout from TransportError anywhere in the produced result. -/
theorem timeout_classification_counterexample :
    fTimeoutFirst "https://ipapi.co/json/" = .exn ⟨.timeout, "request timed out"⟩
    ∧ fTransportFirst "https://ipapi.co/json/" = .exn ⟨.transportError, "request timed out"⟩
    ∧ ip_lookup fTimeoutFirst = ip_lookup fTransportFirst
    ∧ ip_lookup fTimeoutFirst
      = (.httpError 502 "All sources failed: request timed out", ipSources) :=
  ⟨rfl, rfl, rfl, rfl⟩

/-- Claim C5 as amended: a provider attempt that raises (a timeout included)
makes the orchestrator proceed to the next provider; what is recorded is
only the exception message string for IP lookup - the result does not
depend on the exception kind - and nothing at all for jokes. -/
theorem exception_proceeds_to_next_amended :
    (∀ (f : String → FetchOutcome) (url : String) (rest : List String)
        (last : Option String) (k : ExnKind) (m : String), f url = .exn ⟨k, m⟩ →
        ipLoop f (url :: rest) last
          = ((ipLoop f rest (some m)).1, url :: (ipLoop f rest (some m)).2))
    ∧ (∀ (f : String → FetchOutcome) (url : String) (rest : List String)
        (e : Exn), f url = .exn e →
        jokeLoop f (url :: rest) = ((jokeLoop f rest).1, url :: (jokeLoop f rest).2)) := by
  constructor
  · intro f url rest last k m h
    simp only [ipLoop, h]
  · intro f url rest e h
    simp only [jokeLoop, h]

/-- Witness for the amended C5 at the concrete timed-out oracle. -/
theorem exception_proceeds_to_next_amended_witness :
    ipLoop fTimeoutFirst ("https://ipapi.co/json/" :: ["https://ipwho.is/"]) none
      = ((ipLoop fTimeoutFirst ["https://ipwho.is/"] (some "request timed out")).1,
         "https://ipapi.co/json/"
           :: (ipLoop fTimeoutFirst ["https://ipwho.is/"] (some "request timed out")).2)
    ∧ jokeLoop fTimeoutFirst ("https://ipapi.co/json/" :: [])
      = ((jokeLoop fTimeoutFirst []).1, "https://ipapi.co/json/" :: (jokeLoop fTimeoutFirst []).2) :=
  ⟨exception_proceeds_to_next_amended.1 fTimeoutFirst _ _ none .timeout "request timed out" rfl,
   exception_proceeds_to_next_amended.2 fTimeoutFirst _ _ ⟨.timeout, "request timed out"⟩ rfl⟩

/-- Claim C7: whenever the lorem upstream call fails - by raising or by a
non-success status - the endpoint still returns a 200 body whose text is the
local placeholder: the fixed sentence joined 30 times, stripped, repeated
once per requested paragraph and joined by blank lines; never a 502. -/
theorem lorem_local_fallback (p : Nat) (o : FetchOutcome)
    (h : (∃ e, o = .exn e) ∨ ∃ r, o = .resp r ∧ r.ok = false) :
    lorem p o = .success (.obj [("text", .str (String.intercalate "\n\n"
      (List.replicate p (String.join (List.replicate 30 loremSentence)).trim)))]) := by
  rcases h with ⟨e, rfl⟩ | ⟨r, rfl, hok⟩
  · rfl
  · simp [lorem, hok]

/-- Witness for C7 at a 500 upstream response and two paragraphs. -/
theorem lorem_local_fallback_witness :
    lorem 2 (.resp nonOkResp) = .success (.obj [("text", .str (String.intercalate "\n\n"
      (List.replicate 2 (String.join (List.replicate 30 loremSentence)).trim)))]) :=
  lorem_local_fallback 2 (.resp nonOkResp) (.inr ⟨nonOkResp, rfl, rfl⟩)

/-- An upstream 200 convert body that lacks the result key. -/
def convNoResult : Response :=
⟨200, "application/json", "", .ok (.obj [("success", .bool true)])⟩

/-- Counterexample to C8: the convert endpoint returns a 200 success whose
result field is null when the upstream ok body lacks the result key. -/
theorem convert_null_result_counterexample :
    currency_convert "USD" "EUR" (.num 1) (.resp convNoResult)
      = .success (.obj [("from", .str "USD"), ("to", .str "EUR"),
          ("amount", .num 1), ("result", Json.null)]) := rfl

/-- Claim C8 as amended: every 200 success of the convert endpoint comes
from an ok upstream response with a parseable body and carries exactly the
canonical keys from, to, amount and result - but the result value is
whatever dict .get produced, null included; failures yield 502, never a
partial 200. -/
theorem convert_success_shape_amended (from_ to_ : String) (amount : Json)
    (o : FetchOutcome) (b : Json)
    (h : currency_convert from_ to_ amount o = .success b) :
    ∃ r j res, o = .resp r ∧ r.ok = true ∧ r.jsonV = .ok j
      ∧ jsonDictGet j "result" = .ok res
      ∧ b = .obj [("from", .str (pyUpper from_)), ("to", .str (pyUpper to_)),
          ("amount", amount), ("result", res)] := by
  cases o with
  | exn e => simp [currency_convert] at h
  | resp r =>
    cases hok : r.ok with
    | false => simp [currency_convert, hok] at h
    | true =>
      cases hj : r.jsonV with
      | error m => simp [currency_convert, hok, hj] at h
      | ok j =>
        cases hres : jsonDictGet j "result" with
        | error m => simp [currency_convert, hok, hj, hres] at h
        | ok res =>
          refine ⟨r, j, res, rfl, hok, hj, hres, ?_⟩
          simp [currency_convert, hok, hj, hres] at h
          exact h.symm

/-- Witness for the amended C8 at the concrete missing-result body. -/
theorem convert_success_shape_amended_witness :
    ∃ r j res, FetchOutcome.resp convNoResult = .resp r ∧ r.ok = true
      ∧ r.jsonV = .ok j ∧ jsonDictGet j "result" = .ok res
      ∧ (Json.obj [("from", .str "USD"), ("to", .str "EUR"),
          ("amount", .num 1), ("result", Json.null)])
        = .obj [("from", .str (pyUpper "USD")), ("to", .str (pyUpper "EUR")),
            ("amount", .num 1), ("result", res)] :=
  convert_success_shape_amended "USD" "EUR" (.num 1) (.resp convNoResult)
    (.obj [("from", .str "USD"), ("to", .str "EUR"),
      ("amount", .num 1), ("result", Json.null)]) rfl

/-- Under an oracle whose every listed provider responds with a non-success
status (raising nothing), the last_error variable keeps its initial value. -/
lemma ipLastError_nonsuccess (f : String → FetchOutcome) :
    ∀ (urls : List String), (∀ u ∈ urls, ∃ r, f u = .resp r ∧ r.ok = false) →
      ∀ last, ipLastError f urls last = last := by
  intro urls
  induction urls with
  | nil => intro _ last; rfl
  | cons v rest ih =>
    intro h last
    obtain ⟨r, hr, hok⟩ := h v (List.mem_cons_self v rest)
    have hrest : ∀ u ∈ rest, ∃ r, f u = .resp r ∧ r.ok = false :=
      fun u hu => h u (List.mem_cons_of_mem v hu)
    simp only [ipLastError, hr, hok, Bool.false_eq_true, if_false]
    exact ih hrest last

/-- Oracle answering every URL with a 500 response. -/
def fAllNonOk : String → FetchOutcome := fun _ => .resp nonOkResp

/-- Claim C9: when every IP provider responds with a non-success status and
none raises, no failure reason is recorded, and the final 502 diagnostic is
literally All sources failed: None, carrying no per-provider information. -/
theorem ip_nonsuccess_silent_diagnostic (f : String → FetchOutcome)
    (h : ∀ u ∈ ipSources, ∃ r, f u = .resp r ∧ r.ok = false) :
    ip_lookup f = (.httpError 502 "All sources failed: None", ipSources) := by
  have hrej : ∀ u ∈ ipSources, ipAccepted (f u) = false := by
    intro u hu
    obtain ⟨r, hr, hok⟩ := h u hu
    rw [hr]
    simp [ipAccepted, hok]
  have hloop := ipLoop_all_rejected f ipSources hrej none
  rw [ipLastError_nonsuccess f ipSources h none] at hloop
  exact hloop

/-- Witness for C9: all three sources answer 500. -/
theorem ip_nonsuccess_silent_diagnostic_witness :
    ip_lookup fAllNonOk = (.httpError 502 "All sources failed: None", ipSources) :=
  ip_nonsuccess_silent_diagnostic fAllNonOk (fun _ _ => ⟨nonOkResp, rfl, rfl⟩)

/-- Claim C10: a geocoding response with a non-success HTTP status makes
the weather endpoint answer exactly as for an unknown city - 404 with
detail City not found, forecast never invoked - not a 502. -/
theorem weather_geo_error_masked_as_not_found (g : Response)
    (fc : Json → Json → FetchOutcome) (h : g.ok = false) :
    weather (.resp g) fc = (.httpError 404 "City not found", false) := by
  simp [weather, h]

/-- Witness for C10 at a 500 geocoding response. -/
theorem weather_geo_error_masked_as_not_found_witness :
    weather (.resp nonOkResp) fcUnused = (.httpError 404 "City not found", false) :=
  weather_geo_error_masked_as_not_found nonOkResp fcUnused rfl

end Hub
